import Mathlib

/-!
A verification development for the method-call instrumentation and event-relay
layer of the repository (`app/utils/listen/toolkit_listen.py` and
`app/utils/toolkit/human_toolkit.py`).

The Python code is shallowly embedded: each wrapper becomes an executable Lean
function from the invocation's data (receiver, configuration, the wrapped
body's outcome, and the possible failure of each queue delivery) to the trace
of observable effects (events handed off, body execution, log lines) together
with the outcome returned or raised to the caller.
-/

/-! ## Event model (`ActionActivateToolkitData` / `ActionDeactivateToolkitData`) -/

/-- The data dictionary carried by an activate or deactivate toolkit event. -/
structure EventData where
  agent_name : String
  process_task_id : String
  toolkit_name : String
  method_name : String
  message : String
deriving DecidableEq, Repr

/-- An event placed on the task queue: toolkit activate/deactivate, or the
notice event used by `HumanToolkit.send_message_to_user`
(`ActionNoticeData(process_task_id=..., data=...)`). -/
inductive ActionEvent where
  | activate (d : EventData)
  | deactivate (d : EventData)
  | notice (process_task_id : String) (data : String)
deriving DecidableEq, Repr

/-! ## Python-side values and exceptions -/

/-- A Python exception, identified by its type name and its textual form
(for the exceptions arising here, `str(e)` is the message). -/
structure PyExc where
  ty : String
  msg : String
deriving DecidableEq, Repr

/-- The classes of Python result values the wrappers distinguish:
`pyNone` is `None`; `str` a textual result; `jsonable` a non-string value
whose `json.dumps` succeeds, carried as its serialized form; `nonserializable`
a value on which `json.dumps` raises `TypeError`, carried as its `str()` form;
`coroutine` a coroutine object, carried as its `str()` form. -/
inductive PyVal where
  | pyNone
  | str (s : String)
  | jsonable (j : String)
  | nonserializable (s : String)
  | coroutine (s : String)
deriving DecidableEq, Repr

/-- `isinstance(res, str)`. -/
def PyVal.isStr : PyVal → Bool
  | .str _ => true
  | _ => false

/-- `asyncio.iscoroutine(res)`. -/
def PyVal.isCoroutine : PyVal → Bool
  | .coroutine _ => true
  | _ => false

/-- Python `str()` of a value, as observable in the wrapper's branches. -/
def pyStr : PyVal → String
  | .pyNone => "None"
  | .str s => s
  | .jsonable j => j
  | .nonserializable s => s
  | .coroutine s => s

/-- `json.dumps(res, ensure_ascii=False)`: `none` models a raised `TypeError`.
(The `.str` row is unreachable in the wrapper, which returns string results
verbatim before attempting serialization.) -/
def jsonDumps : PyVal → Option String
  | .pyNone => some "null"
  | .str s => some ("\"" ++ s ++ "\"")
  | .jsonable j => some j
  | .nonserializable _ => none
  | .coroutine _ => none

/-! ## Receiver and observable trace -/

/-- The instrumented receiver (`args[0]`): its class name, the optional
`api_task_id` attribute (`none` models `hasattr(toolkit, 'api_task_id')`
being false), its `agent_name`, and the value of `toolkit.toolkit_name()`. -/
structure Toolkit where
  className : String
  api_task_id : Option String
  agent_name : String
  toolkitName : String
deriving DecidableEq, Repr

/-- One observable step of an instrumented invocation, in program order:
an event handed off for delivery, the wrapped body running, a coroutine being
closed by the misuse guard, or a warning/error log line. -/
inductive TraceItem where
  | handedOff (e : ActionEvent)
  | bodyRan
  | closedCoroutine
  | warned (msg : String)
  | errorLogged (msg : String)
deriving DecidableEq, Repr

def isActivateItem : TraceItem → Bool
  | .handedOff (.activate _) => true
  | _ => false

def isDeactivateItem : TraceItem → Bool
  | .handedOff (.deactivate _) => true
  | _ => false

def isBodyRunItem : TraceItem → Bool
  | .bodyRan => true
  | _ => false

def isEventItem : TraceItem → Bool
  | .handedOff _ => true
  | _ => false

/-- The activate/deactivate/body sub-trace, keeping program order. -/
def keyItems (tr : List TraceItem) : List TraceItem :=
  tr.filter fun t => isActivateItem t || isDeactivateItem t || isBodyRunItem t

/-! ## Message construction (`toolkit_listen.py` lines 80-104 / 163-187) -/

/-- `MAX_ARGS_LENGTH` / `MAX_LENGTH` in the source. -/
def MAX_ARGS_LENGTH : Nat := 500

/-- Python's character-based slice `s[:n]`. -/
def pyTake (s : String) (n : Nat) : String := String.mk (s.data.take n)

/-- The truncation applied to the argument summary and to the
non-serializable result fallback:
`s[:500] + f"... (truncated, total length: {len(s)} chars)"`
when `len(s) > 500`, else `s` unchanged. -/
def truncateMsg (s : String) : String :=
  if MAX_ARGS_LENGTH < s.length then
    pyTake s MAX_ARGS_LENGTH ++
      "... (truncated, total length: " ++ toString s.length ++ " chars)"
  else s

/-- The default argument rendering: positional arguments (already as their
`repr` strings, receiver dropped) joined by `", "`, with `k=v` keyword pairs
appended; if the positional part is empty, the keyword part stands alone. -/
def defaultArgsStr (argsRepr : List String) (kwargsRepr : List (String × String)) : String :=
  let args_str := String.intercalate ", " argsRepr
  if kwargsRepr.isEmpty then args_str
  else
    let kwargs_str := String.intercalate ", " (kwargsRepr.map fun p => p.1 ++ "=" ++ p.2)
    if args_str = "" then kwargs_str else args_str ++ ", " ++ kwargs_str

/-- The raw (pre-truncation) argument summary: the custom `inputs` formatter's
output when one was supplied (modelled by the string it returns for this
invocation), else the default rendering. -/
def rawArgsStr (inputsFmt : Option String) (argsRepr : List String)
    (kwargsRepr : List (String × String)) : String :=
  match inputsFmt with
  | some s => s
  | none => defaultArgsStr argsRepr kwargsRepr

/-- `func.__name__.replace("_", " ")`. -/
def underscoresToSpaces (s : String) : String :=
  String.mk (s.data.map fun c => if c = '_' then ' ' else c)

/-- The `ActionActivateToolkitData` payload built before the body runs. -/
def activateData (inputsFmt : Option String) (tk : Toolkit) (funcName : String)
    (argsRepr : List String) (kwargsRepr : List (String × String))
    (processTaskId : String) : EventData :=
  { agent_name := tk.agent_name
    process_task_id := processTaskId
    toolkit_name := tk.toolkitName
    method_name := underscoresToSpaces funcName
    message := truncateMsg (rawArgsStr inputsFmt argsRepr kwargsRepr) }

/-- The deactivate-message computation (lines 115-133 / 205-223): a custom
`return_msg` formatter on success; else a string result verbatim; else
`json.dumps` on success with the truncated `str()` fallback on `TypeError`;
on failure, `str(error)`. -/
def resultMsg (returnFmt : Option (PyVal → String)) (error : Option PyExc)
    (res : PyVal) : String :=
  match returnFmt, error with
  | some f, none => f res
  | _, _ =>
    match res, error with
    | .str s, _ => s
    | r, none =>
      match jsonDumps r with
      | some j => j
      | none => truncateMsg (pyStr r)
    | _, some e => e.msg

/-- The `ActionDeactivateToolkitData` payload built after the body finishes. -/
def deactivateData (returnFmt : Option (PyVal → String)) (tk : Toolkit)
    (funcName : String) (processTaskId : String) (error : Option PyExc)
    (res : PyVal) : EventData :=
  { agent_name := tk.agent_name
    process_task_id := processTaskId
    toolkit_name := tk.toolkitName
    method_name := underscoresToSpaces funcName
    message := resultMsg returnFmt error res }

/-! ## Dispatch (`_safe_put_queue`, lines 21-57) -/

/-- `_safe_put_queue(task_lock, data)`: the event is handed to the dispatcher
unconditionally; every internal failure (background task failure, thread
failure, thread creation failure) is caught and logged, so the function never
raises. `fail` carries the logged message of a failing delivery, if any. -/
def safePutQueue (fail : Option String) (e : ActionEvent) : List TraceItem :=
  TraceItem.handedOff e ::
    (match fail with
     | some m => [TraceItem.errorLogged m]
     | none => [])

/-- The warning logged when the receiver lacks `api_task_id`. -/
def missingMsg (tk : Toolkit) : String :=
  "[listen_toolkit] " ++ tk.className ++
    " missing api_task_id, calling method directly"

/-- The `TypeError` message of the sync misuse guard (lines 197-201). -/
def syncMisuseMsg (funcName : String) : String :=
  "Async function " ++ funcName ++
    " was incorrectly called in sync context. This is a bug - the function should be marked as async or should not return a coroutine."

/-! ## The two wrapper variants -/

/-- The `try: res = func(...)` block of `sync_wrapper` including the coroutine
misuse guard: yields the trace of the attempt, the retained `error`, and the
`res` value as the summarization step sees it. -/
def runBodySync (funcName : String) (body : Except PyExc PyVal) :
    List TraceItem × Option PyExc × PyVal :=
  match body with
  | .error e => ([TraceItem.bodyRan], some e, PyVal.pyNone)
  | .ok v =>
    if v.isCoroutine then
      ([TraceItem.bodyRan,
        TraceItem.errorLogged ("[listen_toolkit] " ++ syncMisuseMsg funcName),
        TraceItem.closedCoroutine],
       some { ty := "TypeError", msg := syncMisuseMsg funcName }, v)
    else
      ([TraceItem.bodyRan], none, v)

/-- The `try: res = await func(...)` block of `async_wrapper` (no guard). -/
def runBodyAsync (body : Except PyExc PyVal) :
    List TraceItem × Option PyExc × PyVal :=
  match body with
  | .error e => ([TraceItem.bodyRan], some e, PyVal.pyNone)
  | .ok v => ([TraceItem.bodyRan], none, v)

/-- `if error is not None: raise error` / `return res`. -/
def outcomeOf : Option PyExc → PyVal → Except PyExc PyVal
  | some e, _ => Except.error e
  | none, v => Except.ok v

/-- `sync_wrapper` (lines 154-237). The invocation is described by the wrapper
configuration (`inputsFmt` models the custom `inputs` formatter by its output,
`returnFmt` the custom `return_msg` formatter), the receiver, the wrapped
function's name, the rendered arguments, the ambient `process_task.get("")`
value, the wrapped body's outcome, and the failure (logged message) of each
`_safe_put_queue` delivery. -/
def syncWrapper (inputsFmt : Option String) (returnFmt : Option (PyVal → String))
    (tk : Toolkit) (funcName : String) (argsRepr : List String)
    (kwargsRepr : List (String × String)) (processTaskId : String)
    (body : Except PyExc PyVal) (actFail dactFail : Option String) :
    List TraceItem × Except PyExc PyVal :=
  match tk.api_task_id with
  | none => ([TraceItem.warned (missingMsg tk), TraceItem.bodyRan], body)
  | some _ =>
    let act := ActionEvent.activate
      (activateData inputsFmt tk funcName argsRepr kwargsRepr processTaskId)
    let r := runBodySync funcName body
    let dact := ActionEvent.deactivate
      (deactivateData returnFmt tk funcName processTaskId r.2.1 r.2.2)
    (safePutQueue actFail act ++ r.1 ++ safePutQueue dactFail dact,
     outcomeOf r.2.1 r.2.2)

/-- `async_wrapper` (lines 71-147). Unlike the sync variant, each event is
delivered by `await task_lock.put_queue(...)` directly, with no handler: a
failing delivery (modelled by `activateFail` / `deactivateFail` carrying the
raised exception) aborts the wrapper at that point and propagates. -/
def asyncWrapper (inputsFmt : Option String) (returnFmt : Option (PyVal → String))
    (tk : Toolkit) (funcName : String) (argsRepr : List String)
    (kwargsRepr : List (String × String)) (processTaskId : String)
    (body : Except PyExc PyVal) (activateFail deactivateFail : Option PyExc) :
    List TraceItem × Except PyExc PyVal :=
  match tk.api_task_id with
  | none => ([TraceItem.warned (missingMsg tk), TraceItem.bodyRan], body)
  | some _ =>
    let act := ActionEvent.activate
      (activateData inputsFmt tk funcName argsRepr kwargsRepr processTaskId)
    match activateFail with
    | some qe => ([], Except.error qe)
    | none =>
      let r := runBodyAsync body
      let dact := ActionEvent.deactivate
        (deactivateData returnFmt tk funcName processTaskId r.2.1 r.2.2)
      match deactivateFail with
      | some qe => (TraceItem.handedOff act :: r.1, Except.error qe)
      | none =>
        (TraceItem.handedOff act :: r.1 ++ [TraceItem.handedOff dact],
         outcomeOf r.2.1 r.2.2)

/-! ## Reflective auto-instrumentation (`auto_listen_toolkit`, lines 244-325) -/

/-- `EXCLUDED_METHODS` (lines 248-259), verbatim. -/
def EXCLUDED_METHODS : List String :=
  ["get_tools", "get_can_use_tools", "toolkit_name", "run_mcp_server",
   "model_dump", "model_dump_json", "dict", "json", "copy", "update"]

/-- A member of the base class as `dir()` + `getattr` expose it: its name and
whether `callable(attr)` holds. -/
structure Member where
  name : String
  isCallable : Bool
deriving DecidableEq, Repr

/-- `name.startswith('_')`: the first character is an underscore. -/
def startsWithUnderscore (n : String) : Bool :=
  match n.data with
  | [] => false
  | c :: _ => c = '_'

/-- The `base_methods` collection (lines 284-290): public (no leading
underscore), not excluded, callable members of the base class. -/
def base_methods (base : List Member) : List String :=
  (base.filter fun m =>
    (!startsWithUnderscore m.name) && (!EXCLUDED_METHODS.contains m.name)
      && m.isCallable).map Member.name

/-- The names the decorator actually installs on the derived class
(lines 292-294 skip any name already in `cls.__dict__`). -/
def installedMethods (base : List Member) (clsDict : List String) : List String :=
  (base_methods base).filter fun n => !clsDict.contains n

/-- A Python function object as the unwrap loop of `create_wrapper` sees it:
either a plain function, or a wrapper layer (carrying its own
`iscoroutinefunction` flag and declared-signature override behavior) around an
inner function object reachable through `__wrapped__`. -/
inductive FnObj where
  | plain (isCoro : Bool) (sig : String)
  | wrapped (isCoro : Bool) (inner : FnObj)
deriving DecidableEq, Repr

/-- `iscoroutinefunction` applied to the object itself (no unwrapping). -/
def FnObj.isCoro : FnObj → Bool
  | .plain c _ => c
  | .wrapped c _ => c

/-- The `while hasattr(unwrapped_method, '__wrapped__')` loop (lines 300-302):
follow `__wrapped__` down to the innermost implementation. -/
def unwrapAll : FnObj → FnObj
  | .plain c s => .plain c s
  | .wrapped _ inner => unwrapAll inner

/-- `inspect.signature`, which itself follows `__wrapped__`, yielding the
innermost declared signature (line 296 computes `sig = signature(base_method)`
before wrapping). -/
def pySignature : FnObj → String
  | .plain _ s => s
  | .wrapped _ inner => pySignature inner

/-- The synthesized forwarding shim: the `__name__` and `__signature__` set on
it, and whether it was created as an `async def` (a coroutine function). -/
structure Shim where
  name : String
  sig : String
  isCoro : Bool
deriving DecidableEq, Repr

/-- `create_wrapper` (lines 298-316): unwrap the decoration layers, then build
an async forwarding shim when the innermost implementation is a coroutine
function and a sync one otherwise, stamping the original name and the declared
signature on it. -/
def create_wrapper (method_name : String) (base_method : FnObj) : Shim :=
  let unwrapped := unwrapAll base_method
  if unwrapped.isCoro then
    { name := method_name, sig := pySignature base_method, isCoro := true }
  else
    { name := method_name, sig := pySignature base_method, isCoro := false }

/-! ## `HumanToolkit.send_message_to_user` (`human_toolkit.py`, lines 64-124) -/

/-- `attachment_info = f" {message_attachment}" if message_attachment else ""`:
Python truthiness makes both `None` and the empty string yield `""`. -/
def attachmentInfo : Option String → String
  | none => ""
  | some s => if s = "" then "" else " " ++ s

/-- `send_message_to_user`: hands the notice event
(`ActionNoticeData(process_task_id=..., data=description)`) to
`_safe_put_queue` and returns the confirmation string. `fail` carries the
logged message of a failing fire-and-forget delivery, if any. -/
def send_message_to_user (title description : String) (attachment : Option String)
    (processTaskId : String) (fail : Option String) :
    List TraceItem × String :=
  (safePutQueue fail (ActionEvent.notice processTaskId description),
   "Message successfully sent to user: '" ++ title ++ " " ++ description
     ++ attachmentInfo attachment ++ "'")

/-! ## Truncation policy as a relation, and concrete fixtures -/

/-- `out` is `orig` unchanged within the 500-character bound, or the
500-character prefix of `orig` followed by the marker suffix stating the
untruncated length. -/
def truncationOk (orig out : String) : Prop :=
  (out = orig ∧ orig.length ≤ MAX_ARGS_LENGTH) ∨
  out = pyTake orig MAX_ARGS_LENGTH ++
    "... (truncated, total length: " ++ toString orig.length ++ " chars)"

/-- A concrete receiver that carries `api_task_id`. -/
def tkDemo : Toolkit :=
  { className := "PPTXToolkit", api_task_id := some "task-1",
    agent_name := "document_agent", toolkitName := "PPTXToolkit" }

/-- A 501-character string (a result longer than the 500-character bound). -/
def longStr : String := String.mk (List.replicate 501 'a')

/-- A concrete receiver lacking the `api_task_id` attribute. -/
def tkNoId : Toolkit :=
  { className := "SearchToolkit", api_task_id := none,
    agent_name := "search_agent", toolkitName := "SearchToolkit" }

/-! # Theorems -/

/-- The truncation helper satisfies the bound-or-marked-suffix policy. -/
theorem truncateMsg_ok (s : String) : truncationOk s (truncateMsg s) := by
  unfold truncationOk truncateMsg
  by_cases h : MAX_ARGS_LENGTH < s.length
  · right
    simp [h]
  · left
    simp [h]
    exact Nat.le_of_not_lt h

/-- Claim C5: for every invocation of an instrumented operation whose receiver
lacks the task-identity attribute (`api_task_id`), the interceptor (in both
variants) logs a warning and calls the wrapped operation directly, producing
zero Activate and zero Deactivate events and returning the wrapped operation's
result (or propagating its failure) unchanged. -/
theorem C5_missing_task_id (i : Option String) (r : Option (PyVal → String))
    (tk : Toolkit) (funcName : String) (a : List String)
    (k : List (String × String)) (p : String) (body : Except PyExc PyVal)
    (af df : Option String) (qaf qdf : Option PyExc)
    (h : tk.api_task_id = none) :
    syncWrapper i r tk funcName a k p body af df
        = ([TraceItem.warned (missingMsg tk), TraceItem.bodyRan], body)
    ∧ asyncWrapper i r tk funcName a k p body qaf qdf
        = ([TraceItem.warned (missingMsg tk), TraceItem.bodyRan], body)
    ∧ (syncWrapper i r tk funcName a k p body af df).1.filter isEventItem = []
    ∧ (asyncWrapper i r tk funcName a k p body qaf qdf).1.filter isEventItem
        = [] := by
  obtain ⟨cn, api, an, tn⟩ := tk
  cases api with
  | some x => exact Option.noConfusion h
  | none => exact ⟨rfl, rfl, rfl, rfl⟩

/-- Claim C5 witness: a receiver without `api_task_id` and a failing wrapped
operation, at concrete inputs. -/
theorem C5_missing_task_id_witness :
    tkNoId.api_task_id = none
    ∧ (syncWrapper none none tkNoId "search_web" ["'query'"] [] ""
          (Except.error { ty := "ValueError", msg := "bad query" }) none none
        = ([TraceItem.warned (missingMsg tkNoId), TraceItem.bodyRan],
           Except.error { ty := "ValueError", msg := "bad query" })
      ∧ asyncWrapper none none tkNoId "search_web" ["'query'"] [] ""
          (Except.error { ty := "ValueError", msg := "bad query" }) none none
        = ([TraceItem.warned (missingMsg tkNoId), TraceItem.bodyRan],
           Except.error { ty := "ValueError", msg := "bad query" })
      ∧ (syncWrapper none none tkNoId "search_web" ["'query'"] [] ""
          (Except.error { ty := "ValueError", msg := "bad query" })
          none none).1.filter isEventItem = []
      ∧ (asyncWrapper none none tkNoId "search_web" ["'query'"] [] ""
          (Except.error { ty := "ValueError", msg := "bad query" })
          none none).1.filter isEventItem = []) :=
  ⟨rfl, C5_missing_task_id none none tkNoId "search_web" ["'query'"] [] ""
      (Except.error { ty := "ValueError", msg := "bad query" }) none none none none rfl⟩

/-- Claim C8: the forwarding shim built by `create_wrapper` is a coroutine
function exactly when the innermost implementation under the `__wrapped__`
chain is, and it carries the original operation's name and declared
signature. -/
theorem C8_shim_nature (n : String) (f : FnObj) :
    (create_wrapper n f).isCoro = (unwrapAll f).isCoro
    ∧ (create_wrapper n f).name = n
    ∧ (create_wrapper n f).sig = pySignature f := by
  unfold create_wrapper
  by_cases h : (unwrapAll f).isCoro = true <;> simp [h]

/-- Claim C10: `send_message_to_user` returns the confirmation string built
from the title, description and attachment, identically whether or not the
fire-and-forget delivery of the notice event fails, and the notice event is
always handed off. -/
theorem C10_send_message_result (title description : String)
    (attachment : Option String) (p : String) (fail fail2 : Option String) :
    (send_message_to_user title description attachment p fail).2
      = "Message successfully sent to user: '" ++ title ++ " " ++ description
          ++ attachmentInfo attachment ++ "'"
    ∧ (send_message_to_user title description attachment p fail).2
      = (send_message_to_user title description attachment p fail2).2
    ∧ TraceItem.handedOff (ActionEvent.notice p description)
        ∈ (send_message_to_user title description attachment p fail).1 := by
  refine ⟨rfl, rfl, ?_⟩
  simp [send_message_to_user, safePutQueue]

/-- Claim C6: the auto-instrumentation transform installs an interceptor for a
name exactly when it is a public callable member of the base class that is
neither excluded, nor underscore-prefixed, nor already defined in the derived
class's own dictionary. -/
theorem C6_auto_instrumentation (base : List Member) (clsDict : List String)
    (n : String) :
    n ∈ installedMethods base clsDict ↔
      ((∃ m ∈ base, m.name = n ∧ m.isCallable = true)
        ∧ startsWithUnderscore n = false
        ∧ n ∉ EXCLUDED_METHODS
        ∧ n ∉ clsDict) := by
  simp only [installedMethods, base_methods, List.mem_filter, List.mem_map,
    Bool.not_eq_true', Bool.and_eq_true, List.contains_eq_any_beq,
    List.any_eq_false, beq_iff_eq]
  constructor
  · rintro ⟨⟨m, ⟨hmem, ⟨hu, hexc⟩, hc⟩, rfl⟩, hcls⟩
    exact ⟨⟨m, hmem, rfl, hc⟩, hu,
      fun hin => hexc m.name hin rfl,
      fun hin => hcls m.name hin rfl⟩
  · rintro ⟨⟨m, hmem, rfl, hc⟩, hu, hexc, hcls⟩
    refine ⟨⟨m, ⟨hmem, ⟨hu, ?_⟩, hc⟩, rfl⟩, ?_⟩
    · intro x hx hxx
      exact hexc (hxx ▸ hx)
    · intro x hx hxx
      exact hcls (hxx ▸ hx)

/-- Claim C7: a non-suspending instrumented operation whose wrapped body
returns a coroutine has that coroutine closed, an error logged, and a
`TypeError` naming the offending operation raised to the caller; the coroutine
value is never returned. -/
theorem C7_sync_coroutine_guard (i : Option String) (r : Option (PyVal → String))
    (tk : Toolkit) (tid funcName s : String) (a : List String)
    (k : List (String × String)) (p : String) (af df : Option String)
    (h : tk.api_task_id = some tid) :
    (syncWrapper i r tk funcName a k p (Except.ok (PyVal.coroutine s)) af df).2
      = Except.error { ty := "TypeError", msg := syncMisuseMsg funcName }
    ∧ TraceItem.closedCoroutine
        ∈ (syncWrapper i r tk funcName a k p (Except.ok (PyVal.coroutine s)) af df).1
    ∧ TraceItem.errorLogged ("[listen_toolkit] " ++ syncMisuseMsg funcName)
        ∈ (syncWrapper i r tk funcName a k p (Except.ok (PyVal.coroutine s)) af df).1
    ∧ ∀ v, (syncWrapper i r tk funcName a k p (Except.ok (PyVal.coroutine s)) af df).2
        ≠ Except.ok v := by
  obtain ⟨cn, api, an, tn⟩ := tk
  cases api with
  | none => exact Option.noConfusion h
  | some x =>
    refine ⟨rfl, ?_, ?_, ?_⟩
    · simp [syncWrapper, runBodySync, safePutQueue, PyVal.isCoroutine]
    · simp [syncWrapper, runBodySync, safePutQueue, PyVal.isCoroutine]
    · intro v hv
      exact Except.noConfusion hv

/-- Claim C7 witness: the guard at a concrete invocation. -/
theorem C7_sync_coroutine_guard_witness :
    tkDemo.api_task_id = some "task-1"
    ∧ ((syncWrapper none none tkDemo "get_info" [] [] ""
          (Except.ok (PyVal.coroutine "<coroutine object get_info>")) none none).2
        = Except.error { ty := "TypeError", msg := syncMisuseMsg "get_info" }
      ∧ TraceItem.closedCoroutine
          ∈ (syncWrapper none none tkDemo "get_info" [] [] ""
              (Except.ok (PyVal.coroutine "<coroutine object get_info>")) none none).1
      ∧ TraceItem.errorLogged ("[listen_toolkit] " ++ syncMisuseMsg "get_info")
          ∈ (syncWrapper none none tkDemo "get_info" [] [] ""
              (Except.ok (PyVal.coroutine "<coroutine object get_info>")) none none).1
      ∧ ∀ v, (syncWrapper none none tkDemo "get_info" [] [] ""
              (Except.ok (PyVal.coroutine "<coroutine object get_info>")) none none).2
          ≠ Except.ok v) :=
  ⟨rfl, C7_sync_coroutine_guard none none tkDemo "task-1" "get_info"
      "<coroutine object get_info>" [] [] "" none none rfl⟩

/-- Claim C9: when a custom argument formatter is supplied, its output is
subjected to the same 500-character truncation policy before being placed in
the Activate event's message, in both wrapper variants. -/
theorem C9_formatter_truncation (s : String) (r : Option (PyVal → String))
    (tk : Toolkit) (tid funcName : String) (a : List String)
    (k : List (String × String)) (p : String) (body : Except PyExc PyVal)
    (af df : Option String) (h : tk.api_task_id = some tid) :
    (activateData (some s) tk funcName a k p).message = truncateMsg s
    ∧ truncationOk s ((activateData (some s) tk funcName a k p).message)
    ∧ TraceItem.handedOff (ActionEvent.activate (activateData (some s) tk funcName a k p))
        ∈ (syncWrapper (some s) r tk funcName a k p body af df).1
    ∧ TraceItem.handedOff (ActionEvent.activate (activateData (some s) tk funcName a k p))
        ∈ (asyncWrapper (some s) r tk funcName a k p body none none).1 := by
  obtain ⟨cn, api, an, tn⟩ := tk
  cases api with
  | none => exact Option.noConfusion h
  | some x =>
    refine ⟨rfl, truncateMsg_ok s, ?_, ?_⟩
    · simp [syncWrapper, safePutQueue]
    · rcases body with e | v <;> simp [asyncWrapper, runBodyAsync]

/-- Claim C9 witness: a 600-character formatter output at a concrete
invocation is truncated in the Activate message. -/
theorem C9_formatter_truncation_witness :
    tkDemo.api_task_id = some "task-1"
    ∧ ((activateData (some (String.mk (List.replicate 600 'q'))) tkDemo "ask_human_via_gui"
          [] [] "").message = truncateMsg (String.mk (List.replicate 600 'q'))
      ∧ truncationOk (String.mk (List.replicate 600 'q'))
          ((activateData (some (String.mk (List.replicate 600 'q'))) tkDemo "ask_human_via_gui"
            [] [] "").message)
      ∧ TraceItem.handedOff (ActionEvent.activate
            (activateData (some (String.mk (List.replicate 600 'q'))) tkDemo "ask_human_via_gui"
              [] [] ""))
          ∈ (syncWrapper (some (String.mk (List.replicate 600 'q'))) none tkDemo
              "ask_human_via_gui" [] [] "" (Except.ok (PyVal.str "reply")) none none).1
      ∧ TraceItem.handedOff (ActionEvent.activate
            (activateData (some (String.mk (List.replicate 600 'q'))) tkDemo "ask_human_via_gui"
              [] [] ""))
          ∈ (asyncWrapper (some (String.mk (List.replicate 600 'q'))) none tkDemo
              "ask_human_via_gui" [] [] "" (Except.ok (PyVal.str "reply")) none none).1) :=
  ⟨rfl, C9_formatter_truncation (String.mk (List.replicate 600 'q')) none tkDemo
      "task-1" "ask_human_via_gui" [] [] "" (Except.ok (PyVal.str "reply")) none none rfl⟩

/-- Claim C1 counterexample: a suspending-variant invocation whose receiver
carries `api_task_id`. With a failing Deactivate enqueue the body runs to
completion yet zero Deactivate events are handed off; with a failing Activate
enqueue the invocation produces zero events of either kind. -/
theorem C1_counterexample :
    tkDemo.api_task_id = some "task-1"
    ∧ ((asyncWrapper none none tkDemo "create_presentation" [] [] ""
          (Except.ok (PyVal.str "done")) none
          (some { ty := "RuntimeError", msg := "event loop is closed" })).1.filter
            isBodyRunItem).length = 1
    ∧ ((asyncWrapper none none tkDemo "create_presentation" [] [] ""
          (Except.ok (PyVal.str "done")) none
          (some { ty := "RuntimeError", msg := "event loop is closed" })).1.filter
            isDeactivateItem).length = 0
    ∧ ((asyncWrapper none none tkDemo "create_presentation" [] [] ""
          (Except.ok (PyVal.str "done"))
          (some { ty := "RuntimeError", msg := "event loop is closed" })
          none).1.filter isEventItem).length = 0 :=
  ⟨rfl, rfl, rfl, rfl⟩

/-- Claim C1 (amended): for every intercepted invocation whose receiver
carries the task-identity attribute, the trace of activate hand-offs, body
execution and deactivate hand-offs is exactly one Activate, then the body,
then one Deactivate — unconditionally in the non-suspending variant (whose
dispatcher absorbs delivery failures), and in the suspending variant provided
neither awaited enqueue raises. -/
theorem C1_activation_pairing (i : Option String) (r : Option (PyVal → String))
    (tk : Toolkit) (tid funcName : String) (a : List String)
    (k : List (String × String)) (p : String) (body : Except PyExc PyVal)
    (af df : Option String) (h : tk.api_task_id = some tid) :
    keyItems (syncWrapper i r tk funcName a k p body af df).1
      = [TraceItem.handedOff (ActionEvent.activate (activateData i tk funcName a k p)),
         TraceItem.bodyRan,
         TraceItem.handedOff (ActionEvent.deactivate
           (deactivateData r tk funcName p (runBodySync funcName body).2.1
             (runBodySync funcName body).2.2))]
    ∧ keyItems (asyncWrapper i r tk funcName a k p body none none).1
      = [TraceItem.handedOff (ActionEvent.activate (activateData i tk funcName a k p)),
         TraceItem.bodyRan,
         TraceItem.handedOff (ActionEvent.deactivate
           (deactivateData r tk funcName p (runBodyAsync body).2.1
             (runBodyAsync body).2.2))] := by
  obtain ⟨cn, api, an, tn⟩ := tk
  cases api with
  | none => exact Option.noConfusion h
  | some x =>
    refine ⟨?_, ?_⟩
    · cases af <;> cases df <;> rcases body with e | v <;>
        first
          | rfl
          | (cases v <;> rfl)
    · rcases body with e | v <;> rfl

/-- Claim C1 witness: the pairing at a concrete successful invocation. -/
theorem C1_activation_pairing_witness :
    tkDemo.api_task_id = some "task-1"
    ∧ (keyItems (syncWrapper none none tkDemo "create_presentation" ["'deck'"] [] ""
          (Except.ok (PyVal.str "created")) none none).1
        = [TraceItem.handedOff (ActionEvent.activate
             (activateData none tkDemo "create_presentation" ["'deck'"] [] "")),
           TraceItem.bodyRan,
           TraceItem.handedOff (ActionEvent.deactivate
             (deactivateData none tkDemo "create_presentation" ""
               (runBodySync "create_presentation" (Except.ok (PyVal.str "created"))).2.1
               (runBodySync "create_presentation" (Except.ok (PyVal.str "created"))).2.2))]
      ∧ keyItems (asyncWrapper none none tkDemo "create_presentation" ["'deck'"] [] ""
          (Except.ok (PyVal.str "created")) none none).1
        = [TraceItem.handedOff (ActionEvent.activate
             (activateData none tkDemo "create_presentation" ["'deck'"] [] "")),
           TraceItem.bodyRan,
           TraceItem.handedOff (ActionEvent.deactivate
             (deactivateData none tkDemo "create_presentation" ""
               (runBodyAsync (Except.ok (PyVal.str "created"))).2.1
               (runBodyAsync (Except.ok (PyVal.str "created"))).2.2))]) :=
  ⟨rfl, C1_activation_pairing none none tkDemo "task-1" "create_presentation"
      ["'deck'"] [] "" (Except.ok (PyVal.str "created")) none none rfl⟩

/-- Claim C2 counterexample: in the suspending variant a failing Activate
enqueue propagates to the caller of the instrumented method (the body even
succeeds), contradicting "never propagates" for both variants. -/
theorem C2_counterexample :
    tkDemo.api_task_id = some "task-1"
    ∧ (asyncWrapper none none tkDemo "send_message_to_user" [] [] ""
        (Except.ok (PyVal.str "ok"))
        (some { ty := "RuntimeError", msg := "queue write failed" }) none).2
      = Except.error { ty := "RuntimeError", msg := "queue write failed" } :=
  ⟨rfl, rfl⟩

/-- Claim C2 (amended): in the non-suspending variant every delivery failure
is absorbed by `_safe_put_queue` — it is logged and the invocation's outcome
is identical to the failure-free run; in the suspending variant the enqueues
are awaited directly, so an Activate-enqueue failure propagates to the
caller. -/
theorem C2_dispatch_failure_handling (i : Option String)
    (r : Option (PyVal → String)) (tk : Toolkit) (tid funcName : String)
    (a : List String) (k : List (String × String)) (p : String)
    (body : Except PyExc PyVal) (m m2 : String) (qe : PyExc)
    (df : Option PyExc) (h : tk.api_task_id = some tid) :
    (syncWrapper i r tk funcName a k p body (some m) (some m2)).2
      = (syncWrapper i r tk funcName a k p body none none).2
    ∧ TraceItem.errorLogged m
        ∈ (syncWrapper i r tk funcName a k p body (some m) (some m2)).1
    ∧ TraceItem.errorLogged m2
        ∈ (syncWrapper i r tk funcName a k p body (some m) (some m2)).1
    ∧ (asyncWrapper i r tk funcName a k p body (some qe) df).2
      = Except.error qe := by
  obtain ⟨cn, api, an, tn⟩ := tk
  cases api with
  | none => exact Option.noConfusion h
  | some x =>
    refine ⟨rfl, ?_, ?_, rfl⟩
    · simp [syncWrapper, safePutQueue]
    · simp [syncWrapper, safePutQueue]

/-- Claim C2 witness: absorbed sync-variant failures and a propagating
async-variant failure at concrete inputs. -/
theorem C2_dispatch_failure_handling_witness :
    tkDemo.api_task_id = some "task-1"
    ∧ ((syncWrapper none none tkDemo "send_message_to_user" [] [] ""
          (Except.ok (PyVal.str "ok")) (some "[listen_toolkit] Failed to send data to queue")
          (some "[listen_toolkit] Failed to send data in thread")).2
        = (syncWrapper none none tkDemo "send_message_to_user" [] [] ""
            (Except.ok (PyVal.str "ok")) none none).2
      ∧ TraceItem.errorLogged "[listen_toolkit] Failed to send data to queue"
          ∈ (syncWrapper none none tkDemo "send_message_to_user" [] [] ""
              (Except.ok (PyVal.str "ok")) (some "[listen_toolkit] Failed to send data to queue")
              (some "[listen_toolkit] Failed to send data in thread")).1
      ∧ TraceItem.errorLogged "[listen_toolkit] Failed to send data in thread"
          ∈ (syncWrapper none none tkDemo "send_message_to_user" [] [] ""
              (Except.ok (PyVal.str "ok")) (some "[listen_toolkit] Failed to send data to queue")
              (some "[listen_toolkit] Failed to send data in thread")).1
      ∧ (asyncWrapper none none tkDemo "send_message_to_user" [] [] ""
            (Except.ok (PyVal.str "ok"))
            (some { ty := "RuntimeError", msg := "no running event loop" }) none).2
          = Except.error { ty := "RuntimeError", msg := "no running event loop" }) :=
  ⟨rfl, C2_dispatch_failure_handling none none tkDemo "task-1" "send_message_to_user"
      [] [] "" (Except.ok (PyVal.str "ok"))
      "[listen_toolkit] Failed to send data to queue"
      "[listen_toolkit] Failed to send data in thread"
      { ty := "RuntimeError", msg := "no running event loop" } none rfl⟩

/-- Claim C3 counterexample: in the suspending variant, when the wrapped body
raises and the Deactivate enqueue itself then fails, the caller receives the
enqueue failure instead of the original exception — the wrapped operation's
failure is replaced. -/
theorem C3_counterexample :
    tkDemo.api_task_id = some "task-1"
    ∧ (asyncWrapper none none tkDemo "open_file" [] [] ""
        (Except.error { ty := "ValueError", msg := "bad path" }) none
        (some { ty := "RuntimeError", msg := "queue write failed" })).2
      = Except.error { ty := "RuntimeError", msg := "queue write failed" }
    ∧ (asyncWrapper none none tkDemo "open_file" [] [] ""
        (Except.error { ty := "ValueError", msg := "bad path" }) none
        (some { ty := "RuntimeError", msg := "queue write failed" })).2
      ≠ Except.error { ty := "ValueError", msg := "bad path" } := by
  refine ⟨rfl, rfl, ?_⟩
  intro hx
  rw [show (asyncWrapper none none tkDemo "open_file" [] [] ""
        (Except.error { ty := "ValueError", msg := "bad path" }) none
        (some { ty := "RuntimeError", msg := "queue write failed" })).2
      = Except.error { ty := "RuntimeError", msg := "queue write failed" } from rfl] at hx
  simp at hx

/-- Claim C3 (amended): for every instrumented invocation whose wrapped
operation raises, the Deactivate event's message equals the textual form of
the exception; the identical exception is re-raised to the caller in the
non-suspending variant unconditionally, and in the suspending variant provided
the Deactivate enqueue does not itself raise (a failing enqueue replaces the
original exception in the suspending variant). -/
theorem C3_error_transparency (i : Option String) (r : Option (PyVal → String))
    (tk : Toolkit) (tid funcName : String) (a : List String)
    (k : List (String × String)) (p : String) (e : PyExc)
    (af df : Option String) (h : tk.api_task_id = some tid) :
    (syncWrapper i r tk funcName a k p (Except.error e) af df).2 = Except.error e
    ∧ TraceItem.handedOff (ActionEvent.deactivate
        { agent_name := tk.agent_name, process_task_id := p,
          toolkit_name := tk.toolkitName,
          method_name := underscoresToSpaces funcName, message := e.msg })
      ∈ (syncWrapper i r tk funcName a k p (Except.error e) af df).1
    ∧ (asyncWrapper i r tk funcName a k p (Except.error e) none none).2
      = Except.error e
    ∧ TraceItem.handedOff (ActionEvent.deactivate
        { agent_name := tk.agent_name, process_task_id := p,
          toolkit_name := tk.toolkitName,
          method_name := underscoresToSpaces funcName, message := e.msg })
      ∈ (asyncWrapper i r tk funcName a k p (Except.error e) none none).1 := by
  obtain ⟨cn, api, an, tn⟩ := tk
  cases api with
  | none => exact Option.noConfusion h
  | some x =>
    refine ⟨rfl, ?_, rfl, ?_⟩
    · cases r <;>
        simp [syncWrapper, runBodySync, safePutQueue, deactivateData, resultMsg]
    · cases r <;>
        simp [asyncWrapper, runBodyAsync, deactivateData, resultMsg]

/-- Claim C3 witness: a failing operation at concrete inputs — the Deactivate
message is the exception's text and the same exception is re-raised. -/
theorem C3_error_transparency_witness :
    tkDemo.api_task_id = some "task-1"
    ∧ ((syncWrapper none none tkDemo "open_file" [] [] ""
          (Except.error { ty := "ValueError", msg := "bad path" }) none none).2
        = Except.error { ty := "ValueError", msg := "bad path" }
      ∧ TraceItem.handedOff (ActionEvent.deactivate
          { agent_name := tkDemo.agent_name, process_task_id := "",
            toolkit_name := tkDemo.toolkitName,
            method_name := underscoresToSpaces "open_file", message := "bad path" })
        ∈ (syncWrapper none none tkDemo "open_file" [] [] ""
            (Except.error { ty := "ValueError", msg := "bad path" }) none none).1
      ∧ (asyncWrapper none none tkDemo "open_file" [] [] ""
            (Except.error { ty := "ValueError", msg := "bad path" }) none none).2
        = Except.error { ty := "ValueError", msg := "bad path" }
      ∧ TraceItem.handedOff (ActionEvent.deactivate
          { agent_name := tkDemo.agent_name, process_task_id := "",
            toolkit_name := tkDemo.toolkitName,
            method_name := underscoresToSpaces "open_file", message := "bad path" })
        ∈ (asyncWrapper none none tkDemo "open_file" [] [] ""
            (Except.error { ty := "ValueError", msg := "bad path" }) none none).1) :=
  ⟨rfl, C3_error_transparency none none tkDemo "task-1" "open_file" [] [] ""
      { ty := "ValueError", msg := "bad path" } none none rfl⟩

set_option maxRecDepth 8000 in
/-- Claim C4 counterexample: an invocation whose wrapped operation returns a
501-character string produces a Deactivate event whose message is that string
verbatim — longer than 500 characters, ending in a plain character, and not of
the 500-character-prefix-plus-marker-suffix form. -/
theorem C4_counterexample :
    tkDemo.api_task_id = some "task-1"
    ∧ TraceItem.handedOff (ActionEvent.deactivate
        { agent_name := "document_agent", process_task_id := "",
          toolkit_name := "PPTXToolkit", method_name := "read file",
          message := longStr })
      ∈ (syncWrapper none none tkDemo "read_file" [] [] ""
          (Except.ok (PyVal.str longStr)) none none).1
    ∧ MAX_ARGS_LENGTH < longStr.length
    ∧ longStr.data.getLast? = some 'a'
    ∧ longStr ≠ pyTake longStr MAX_ARGS_LENGTH ++
        "... (truncated, total length: " ++ toString longStr.length ++ " chars)" := by
  refine ⟨rfl, ?_, by decide, by decide, by decide⟩
  exact List.mem_cons_of_mem _ (List.mem_cons_of_mem _ (List.mem_cons_self _ _))

/-- Claim C4 (amended): the Activate argument summary (custom-formatter output
or default rendering alike) is always passed through the 500-character
truncation and hence satisfies the bound-or-marked-suffix policy, and so does
the Deactivate fallback for non-serializable results; but a string result is
placed in the Deactivate message verbatim, without truncation. -/
theorem C4_truncation (i : Option String) (tk : Toolkit) (funcName : String)
    (a : List String) (k : List (String × String)) (p : String) (s t : String) :
    (activateData i tk funcName a k p).message = truncateMsg (rawArgsStr i a k)
    ∧ truncationOk (rawArgsStr i a k) ((activateData i tk funcName a k p).message)
    ∧ resultMsg none none (PyVal.nonserializable s) = truncateMsg s
    ∧ truncationOk s (resultMsg none none (PyVal.nonserializable s))
    ∧ resultMsg none none (PyVal.str t) = t :=
  ⟨rfl, truncateMsg_ok _, rfl, truncateMsg_ok s, rfl⟩
